import Mathlib

set_option maxRecDepth 8000

/- Shallow embedding of the EDM drill control loop from src/discharge-firmware:
   the discharge state machine (tick_ed_drill), the feed state machine
   (tick_md_drill), the adaptive feed-rate update and safety check of
   exec_command_drill (main.c), and the motor board status handling of md.c.
   Hardware reads (ignition detector contact, SPI register reads) are modelled
   as explicit inputs; gate commands and step pulses are modelled as outputs. -/

/-- States of the discharge state machine (ed_drill_state_t, main.c). -/
inductive ed_drill_state
  | waiting_ignition
  | discharging
  | cooldown
  | short_cooldown
deriving DecidableEq

/-- ed_drill_t (main.c). In the source successive_shorts is int16_t and timer
is int32_t; both are modelled as Int (the claims settled here never drive them
near the width bounds, and the comparisons in the source are signed). -/
structure ed_drill where
  state : ed_drill_state
  successive_shorts : Int
  timer : Int
deriving DecidableEq

/-- drill_stats_t (main.c). Unsigned counters are Nat, signed ones Int; the
wrap at the machine width is not reachable in any claim settled here. -/
structure drill_stats where
  n_tick_miss : Int
  n_short : Nat
  n_pulse : Nat
  n_retract : Nat
  last_dump_tick : Int
  accum_ig_delay : Nat
  cnt_ig_delay : Nat
  max_ig_delay : Nat
  min_ig_delay : Nat
  max_successive_short : Nat
deriving DecidableEq

/-- ED_IG_US_TARGET (main.c, uint16_t, value 100). -/
def ED_IG_US_TARGET : Nat := 100

/-- MD_MAX_WAIT_US (main.c, uint16_t, value 5000). -/
def MD_MAX_WAIT_US : Nat := 5000

/-- MD_MIN_WAIT_US (main.c, uint32_t, value 25). -/
def MD_MIN_WAIT_US : Nat := 25

/-- ED_SHORT_COOLDOWN_US (tick_ed_drill local constant, value 1000). -/
def ED_SHORT_COOLDOWN_US : Int := 1000

/-- ED_IG_US_SHORT_THRESH (tick_ed_drill local constant, value 5). -/
def ED_IG_US_SHORT_THRESH : Int := 5

/-- ED_IG_US_MAX_WAIT (tick_ed_drill local constant, value 500). -/
def ED_IG_US_MAX_WAIT : Int := 500

/-- ed_pulse_dur_us (tick_ed_drill local, value 100). -/
def ed_pulse_dur_us : Int := 100

/-- ed_duty_pct (tick_ed_drill local, value 25). -/
def ed_duty_pct : Int := 25

/-- ed_cooldown_us = pulse_dur*100/duty - pulse_dur = 300 (tick_ed_drill). -/
def ed_cooldown_us : Int := (ed_pulse_dur_us * 100) / ed_duty_pct - ed_pulse_dur_us

/-- reset_ig_delay (main.c): clears the ignition-delay accumulator; UINT16_MAX
for min_ig_delay is 65535. -/
def reset_ig_delay (stats : drill_stats) : drill_stats :=
  { stats with accum_ig_delay := 0, cnt_ig_delay := 0,
               max_ig_delay := 0, min_ig_delay := 65535 }

/-- init_drill_stats (main.c): zero counters, then reset_ig_delay. -/
def init_drill_stats : drill_stats :=
  reset_ig_delay
    { n_tick_miss := 0, n_short := 0, n_pulse := 0, n_retract := 0,
      last_dump_tick := 0, accum_ig_delay := 0, cnt_ig_delay := 0,
      max_ig_delay := 0, min_ig_delay := 0, max_successive_short := 0 }

/-- record_ig_delay (main.c). -/
def record_ig_delay (stats : drill_stats) (ig_delay : Nat) : drill_stats :=
  { stats with
    accum_ig_delay := stats.accum_ig_delay + ig_delay,
    cnt_ig_delay := stats.cnt_ig_delay + 1,
    max_ig_delay := if stats.max_ig_delay < ig_delay then ig_delay else stats.max_ig_delay,
    min_ig_delay := if ig_delay < stats.min_ig_delay then ig_delay else stats.min_ig_delay }

/-- init_ed_drill (main.c) writes only state and successive_shorts of the
stack-allocated ed_drill_t; the timer field keeps whatever was on the stack.
That uninitialized content is made explicit as the argument garbage_timer. -/
def init_ed_drill (garbage_timer : Int) : ed_drill :=
  { state := .waiting_ignition, successive_shorts := 0, timer := garbage_timer }

/-- Result of one tick of tick_ed_drill: the updated machine, updated stats,
the ig_time output (uint16_t: the source writes -1, i.e. 65535, for "no
ignition" and 10000 for timeout), and the gate level last commanded via
ed_unsafe_set_gate during the tick. -/
structure ed_tick_result where
  ed : ed_drill
  stats : drill_stats
  ig_time : Nat
  gate : Bool
deriving DecidableEq

/-- The switch statement body of tick_ed_drill (main.c), before the trailing
timer increment. detect is the value ed_unsafe_get_detect() would return.
The assignment *ig_time = ed->timer converts int32_t to uint16_t, hence the
mod 65536. -/
def tick_ed_switch (ed : ed_drill) (stats : drill_stats) (detect : Bool) : ed_tick_result :=
  match ed.state with
  | .waiting_ignition =>
    if ED_IG_US_MAX_WAIT ≤ ed.timer then
      -- too long; reset (timer := 0, successive_shorts := 0, stay waiting)
      { ed := { state := .waiting_ignition, successive_shorts := 0, timer := 0 },
        stats := stats, ig_time := 10000, gate := true }
    else if detect then
      if ed.timer ≤ ED_IG_US_SHORT_THRESH then
        -- short detected
        { ed := { state := .short_cooldown,
                  successive_shorts := ed.successive_shorts + 1, timer := 0 },
          stats := { stats with
            max_successive_short :=
              if (stats.max_successive_short : Int) < ed.successive_shorts + 1 then
                (ed.successive_shorts + 1).toNat
              else stats.max_successive_short,
            n_short := stats.n_short + 1 },
          ig_time := (ed.timer.emod 65536).toNat, gate := true }
      else
        -- normal discharge
        { ed := { state := .discharging, successive_shorts := 0, timer := 0 },
          stats := record_ig_delay { stats with n_pulse := stats.n_pulse + 1 }
                     (ed.timer.emod 65536).toNat,
          ig_time := (ed.timer.emod 65536).toNat, gate := true }
    else
      { ed := ed, stats := stats, ig_time := 65535, gate := true }
  | .discharging =>
    if ed_pulse_dur_us ≤ ed.timer then
      { ed := { ed with state := .cooldown, timer := 0 },
        stats := stats, ig_time := 65535, gate := false }
    else
      { ed := ed, stats := stats, ig_time := 65535, gate := true }
  | .cooldown =>
    if ed_cooldown_us ≤ ed.timer then
      -- note: the source does NOT reset ed->timer here
      { ed := { ed with state := .waiting_ignition },
        stats := stats, ig_time := 65535, gate := false }
    else
      { ed := ed, stats := stats, ig_time := 65535, gate := false }
  | .short_cooldown =>
    if ED_SHORT_COOLDOWN_US ≤ ed.timer then
      -- note: the source does NOT reset ed->timer here
      { ed := { ed with state := .waiting_ignition },
        stats := stats, ig_time := 65535, gate := false }
    else
      { ed := ed, stats := stats, ig_time := 65535, gate := false }

/-- tick_ed_drill (main.c): the switch followed by the unconditional
ed->timer++. -/
def tick_ed_drill (ed : ed_drill) (stats : drill_stats) (detect : Bool) : ed_tick_result :=
  let r := tick_ed_switch ed stats detect
  { r with ed := { r.ed with timer := r.ed.timer + 1 } }

/-- States of the feed state machine (md_drill_state_t, main.c). -/
inductive md_drill_state
  | ok
  | pull
  | push
deriving DecidableEq

/-- md_drill_t (main.c). timer and wait fields are nonnegative throughout
(init sets timer 0 and it is only reset to 0 or incremented), so they are Nat;
positions and step targets are int32_t, modelled as Int. -/
structure md_drill where
  board_ix : Int
  is_plus : Bool
  steps : Int
  state : md_drill_state
  pos : Int
  wait_us : Nat
  pullpush_wait_us : Nat
  pullpush_curr_steps : Int
  pull_target_steps : Int
  push_target_steps : Int
  timer : Nat
deriving DecidableEq

/-- md_to_pullpush (main.c). Must be called when state is ok. -/
def md_to_pullpush (md : md_drill) (pull_steps push_steps : Int) (wait_us : Nat) : md_drill :=
  { md with state := .pull, pullpush_curr_steps := 0, pullpush_wait_us := wait_us,
            pull_target_steps := pull_steps, push_target_steps := push_steps }

/-- Modelled from the spec: MD_STEPS_PER_MM is defined in config.h, which is
not among the sources; the feed-rate comment on MD_MAX_WAIT_US in main.c
(5000 us per step corresponds to 0.01 mm/sec) gives 20000 steps per mm. -/
def MD_STEPS_PER_MM : Nat := 20000

/-- init_md_drill's md_initial_wait_us = 1e6 / (0.05 * MD_STEPS_PER_MM),
i.e. 20000000 / MD_STEPS_PER_MM (the float arithmetic is exact here). -/
def md_initial_wait_us : Nat := 20000000 / MD_STEPS_PER_MM

/-- MD_RETRACT_DIST_STEPS = 5e-3 * MD_STEPS_PER_MM (exec_command_drill). -/
def MD_RETRACT_DIST_STEPS : Int := 100

/-- PUMP_INTERVAL (exec_command_drill, int32_t, 5000000 ticks = 5 s). -/
def PUMP_INTERVAL : Int := 5000000

/-- init_md_drill (main.c). The float distance argument is abstracted to the
step count and direction it produces (steps = abs(MD_STEPS_PER_MM*distance),
is_plus = distance > 0). The four pullpush fields are left uninitialized by
the source; they are modelled as 0 and are never read before md_to_pullpush
overwrites them, since the machine starts in state ok. -/
def init_md_drill (board_ix : Int) (is_plus : Bool) (steps : Int) : md_drill :=
  { board_ix := board_ix, is_plus := is_plus, steps := steps,
    state := .ok, pos := 0, wait_us := md_initial_wait_us,
    pullpush_wait_us := 0, pullpush_curr_steps := 0,
    pull_target_steps := 0, push_target_steps := 0, timer := 0 }

/-- Result of one tick of tick_md_drill: updated machine plus the step pulse
issued via md_step this tick (some dir, dir = the plus flag passed). -/
structure md_tick_result where
  md : md_drill
  step : Option Bool
deriving DecidableEq

/-- The switch statement body of tick_md_drill (main.c), before the trailing
timer increment. -/
def tick_md_switch (md : md_drill) : md_tick_result :=
  match md.state with
  | .ok =>
    if md.wait_us ≤ md.timer then
      { md := { md with timer := 0, pos := md.pos + 1 }, step := some md.is_plus }
    else
      { md := md, step := none }
  | .pull =>
    if md.pull_target_steps ≤ md.pullpush_curr_steps then
      -- note: the source sets push_target_steps to 0 here and keeps
      -- pullpush_curr_steps
      { md := { md with state := .push, timer := 0, push_target_steps := 0 },
        step := none }
    else if md.pullpush_wait_us ≤ md.timer then
      { md := { md with
                  timer := 0
                  pos := md.pos - 1
                  pullpush_curr_steps := md.pullpush_curr_steps + 1 },
        step := some (!md.is_plus) }
    else
      { md := md, step := none }
  | .push =>
    if md.push_target_steps ≤ md.pullpush_curr_steps then
      { md := { md with state := .ok, timer := 0 }, step := none }
    else if md.pullpush_wait_us ≤ md.timer then
      { md := { md with
                  timer := 0
                  pos := md.pos + 1
                  pullpush_curr_steps := md.pullpush_curr_steps + 1 },
        step := some md.is_plus }
    else
      { md := md, step := none }

/-- tick_md_drill (main.c): the switch followed by the unconditional
md->timer++. (The stats argument of the source function is never used.) -/
def tick_md_drill (md : md_drill) : md_tick_result :=
  let r := tick_md_switch md
  { r with md := { r.md with timer := r.md.timer + 1 } }

/-- The adaptive feed-rate block of exec_command_drill (the `if (ig_time >= 0)`
compute step). ig_time is uint16_t in the source, so the guard compares an
unsigned value against 0 and is always true; this is kept verbatim. The
decrement wait_us - 1 is uint32_t arithmetic, hence the explicit wrap when
wait_us = 0. -/
def update_wait_us (wait_us : Nat) (ig_time : Nat) : Nat :=
  if 0 ≤ ig_time then
    if ig_time < ED_IG_US_TARGET then
      let w := wait_us + 1
      if MD_MAX_WAIT_US ≤ w then MD_MAX_WAIT_US else w
    else
      let w := if wait_us = 0 then 4294967295 else wait_us - 1
      if w < MD_MIN_WAIT_US then MD_MIN_WAIT_US else w
  else wait_us

/-- The whole mutable state of one exec_command_drill invocation. pump_steps
is the PUMP_STEPS constant computed at entry (md.steps + 1.5*MD_STEPS_PER_MM);
gate is the level of the discharge gate line. -/
structure drill_loop where
  md : md_drill
  ed : ed_drill
  stats : drill_stats
  pump_counter : Int
  tick : Int
  pump_steps : Int
  gate : Bool
deriving DecidableEq

/-- Per-tick inputs of the loop body: the detector reading, and how many extra
microseconds beyond one elapsed before the busy-wait observed a new tick
(dtick = 0 is the nominal case; dtick ≥ 1 is a tick miss). -/
structure drill_input where
  detect : Bool
  dtick : Nat
deriving DecidableEq

/-- drill_print_stats (main.c) as far as it mutates state: resets the
ignition-delay accumulator and max_successive_short and stamps
last_dump_tick. -/
def drill_print_stats_update (tick : Int) (stats : drill_stats) : drill_stats :=
  { reset_ig_delay stats with max_successive_short := 0, last_dump_tick := tick }

/-- The non-abort remainder of the exec_command_drill loop body, in source
order: adaptive wait update, short-triggered retract, pump check, periodic
stats dump, tick scheduler. Returns the next state and whether the pump
branch fired. -/
def drill_compute (s : drill_loop) (er : ed_tick_result) (mr : md_tick_result)
    (dtick : Nat) : drill_loop × Bool :=
  let md1 : md_drill := { mr.md with wait_us := update_wait_us mr.md.wait_us er.ig_time }
  let retract : Bool := decide (md1.state = .ok) && decide (10 ≤ er.ed.successive_shorts)
  let md2 := if retract then md_to_pullpush md1 MD_RETRACT_DIST_STEPS 0 MD_MIN_WAIT_US else md1
  let stats2 := if retract then { er.stats with n_retract := er.stats.n_retract + 1 } else er.stats
  let pump : Bool := decide (PUMP_INTERVAL ≤ s.pump_counter) && decide (md2.state = .ok)
  let md3 := if pump then md_to_pullpush md2 s.pump_steps s.pump_steps MD_MIN_WAIT_US else md2
  let pc3 : Int := if pump then 0 else s.pump_counter
  let stats3 :=
    if decide (er.ed.state = .cooldown) && decide (stats2.last_dump_tick + 5000000 < s.tick) then
      drill_print_stats_update s.tick stats2
    else stats2
  let tick2 : Int := s.tick + 1 + (dtick : Int)
  let stats4 :=
    if s.tick + 1 < tick2 then { stats3 with n_tick_miss := stats3.n_tick_miss + 1 }
    else stats3
  ({ md := md3, ed := er.ed, stats := stats4, pump_counter := pc3,
     tick := tick2, pump_steps := s.pump_steps, gate := er.gate }, pump)

/-- Outcome of one pass of the while body: either the hard abort (returning
from exec_command_drill with the gate forced off) or the next loop state
together with the pump-fired flag. -/
inductive drill_step_result
  | aborted (final : drill_loop)
  | running (next : drill_loop) (pumped : Bool)
deriving DecidableEq

/-- Whether a step outcome is the abort. -/
def drill_step_result.is_aborted : drill_step_result → Bool
  | .aborted _ => true
  | .running _ _ => false

/-- The state carried by a step outcome. -/
def step_state : drill_step_result → drill_loop
  | .aborted f => f
  | .running s _ => s

/-- One pass of the exec_command_drill while body (main.c): tick_ed_drill,
tick_md_drill, the hard-abort check against the literal 1000, then the
compute block. -/
def drill_step (s : drill_loop) (inp : drill_input) : drill_step_result :=
  let er := tick_ed_drill s.ed s.stats inp.detect
  let mr := tick_md_drill s.md
  if 1000 ≤ er.ed.successive_shorts then
    .aborted { s with ed := er.ed, md := mr.md, stats := er.stats, gate := false }
  else
    let r := drill_compute s er mr inp.dtick
    .running r.1 r.2

/-- The state of exec_command_drill right after its initialization section.
ed_garbage_timer is the uninitialized timer content (see init_ed_drill);
pump_steps = steps + 1.5*MD_STEPS_PER_MM with the modelled 20000 steps/mm. -/
def init_drill_loop (board_ix : Int) (is_plus : Bool) (steps : Int)
    (ed_garbage_timer : Int) : drill_loop :=
  { md := init_md_drill board_ix is_plus steps,
    ed := init_ed_drill ed_garbage_timer,
    stats := init_drill_stats,
    pump_counter := 0, tick := 0, pump_steps := steps + 30000, gate := false }

/-- Runs the while loop of exec_command_drill over a list of per-tick inputs:
stops early on the target-reached condition or on abort. Returns the final
state and whether any pump cycle was triggered during the run. -/
def run_drill (s : drill_loop) : List drill_input → drill_loop × Bool
  | [] => (s, false)
  | inp :: rest =>
    if s.md.pos < s.md.steps then
      match drill_step s inp with
      | .aborted f => (f, false)
      | .running s2 pumped =>
        let r := run_drill s2 rest
        (r.1, pumped || r.2)
    else (s, false)

/-- Iterates tick_md_drill n times (feed machine in isolation, as in the loop
when only its own cadence matters). -/
def run_md : Nat → md_drill → md_drill
  | 0, m => m
  | n + 1, m => run_md n (tick_md_drill m).md

/-- Number of forward (is_plus-direction, here true) step pulses issued over n
ticks of tick_md_drill. -/
def count_fwd_steps : Nat → md_drill → Nat
  | 0, _ => 0
  | n + 1, m =>
    (if (tick_md_drill m).step = some true then 1 else 0) +
      count_fwd_steps n (tick_md_drill m).md

/-- md_board_status_t (md.h). -/
inductive md_board_status
  | ok
  | no_board
  | no_motor
  | overtemp
  | spi_error
deriving DecidableEq

/-- The global boards[MD_NUM_BOARDS] array of md.c (MD_NUM_BOARDS = 3). -/
structure md_boards where
  b0 : md_board_status
  b1 : md_board_status
  b2 : md_board_status
deriving DecidableEq

/-- boards[i]; out-of-range reads never occur in the source (every entry point
bound-checks first), no_board is returned for uniformity. -/
def boards_get (b : md_boards) : Nat → md_board_status
  | 0 => b.b0
  | 1 => b.b1
  | 2 => b.b2
  | _ + 3 => .no_board

/-- boards[i] = v. -/
def boards_set (b : md_boards) : Nat → md_board_status → md_boards
  | 0, v => { b with b0 := v }
  | 1, v => { b with b1 := v }
  | 2, v => { b with b2 := v }
  | _ + 3, _ => b

/-- md_get_status (md.c). read_gstat is the outcome of the GSTAT register
read: none if read_register failed, some value otherwise. The source condition
`result & 0b110 != 0` parses as `result & (0b110 != 0)`, i.e. `result & 1`,
which is modelled verbatim as a test of bit 0. -/
def md_get_status (b : md_boards) (md_index : Nat) (read_gstat : Option Nat) :
    md_boards × md_board_status :=
  if 2 < md_index then (b, .no_board)
  else if boards_get b md_index ≠ .ok then (b, boards_get b md_index)
  else
    match read_gstat with
    | some result =>
      if result % 2 = 1 then (boards_set b md_index .overtemp, .overtemp)
      else (b, .ok)
    | none => (boards_set b md_index .spi_error, .spi_error)

/-- md_step (md.c): returns the step pulse issued (some plus) or none when the
call is a no-op. The boards array is never written by md_step. -/
def md_step (b : md_boards) (md_index : Nat) (plus : Bool) : Option Bool :=
  if 2 < md_index then none
  else if boards_get b md_index ≠ .ok then none
  else some plus

/-- check_stall (md.c). read_drv is the DRV_STATUS register read outcome. The
source condition `result & (1 << 24) != 0` parses as `result & ((1 << 24) != 0)`,
i.e. `result & 1`, modelled verbatim as a test of bit 0. -/
def check_stall (b : md_boards) (md_index : Nat) (read_drv : Option Nat) :
    md_boards × Bool :=
  if 2 < md_index then (b, false)
  else if boards_get b md_index ≠ .ok then (b, false)
  else
    match read_drv with
    | none => (boards_set b md_index .spi_error, false)
    | some result => (b, result % 2 = 1)

/-- One hardware access to the motor boards after initialization, with its
oracle values for SPI reads. -/
inductive md_op
  | get_status (md_index : Nat) (read_gstat : Option Nat)
  | step (md_index : Nat) (plus : Bool)
  | stall (md_index : Nat) (read_drv : Option Nat)
deriving DecidableEq

/-- Effect of one access on the boards array. -/
def md_apply (b : md_boards) : md_op → md_boards
  | .get_status i o => (md_get_status b i o).1
  | .step _ _ => b
  | .stall i o => (check_stall b i o).1

/-- Effect of a sequence of accesses on the boards array. -/
def md_apply_ops (b : md_boards) : List md_op → md_boards
  | [] => b
  | op :: rest => md_apply_ops (md_apply b op) rest

/-- Concrete loop state used to exercise the hard-abort branch: the ED machine
sits in short_cooldown with successive_shorts already at 1000. -/
def c1_ex_loop : drill_loop :=
  { md := init_md_drill 0 true 1000, ed := ⟨.short_cooldown, 1000, 5⟩,
    stats := init_drill_stats, pump_counter := 0, tick := 0,
    pump_steps := 31000, gate := true }

/-- Concrete input for the abort example. -/
def c1_ex_inp : drill_input := ⟨false, 0⟩

/-- The final state the abort example produces. -/
def c1_ex_final : drill_loop := step_state (drill_step c1_ex_loop c1_ex_inp)

/-- Concrete loop state for the adaptive-controller example: the ED machine is
mid-pulse (discharging, timer 10), so this tick produces no ignition-delay
sample; md.wait_us is the initial 1000. -/
def c2_ex_loop : drill_loop :=
  { md := init_md_drill 0 true 100000, ed := ⟨.discharging, 0, 10⟩,
    stats := init_drill_stats, pump_counter := 0, tick := 0,
    pump_steps := 130000, gate := true }

/-- The state after one no-sample tick of the c2 example. -/
def c2_ex_next : drill_loop := step_state (drill_step c2_ex_loop ⟨false, 0⟩)

/-- Concrete feed-machine state for the pump-cycle example: md_to_pullpush
with pull = push = 2 at the fast cadence, exactly as the pump branch would
start it (symmetric distances), from position 0. -/
def c5_ex_md : md_drill := md_to_pullpush (init_md_drill 0 true 1000) 2 2 25

/-- Distinctive statistics value used to observe that the timeout branch
writes no statistics field. -/
def c7_ex_stats : drill_stats := ⟨3, 4, 5, 6, 7, 8, 9, 10, 11, 12⟩

/-- Concrete boards array with board 0 failed. -/
def c9_ex_boards : md_boards := ⟨.no_board, .ok, .ok⟩

/-- Concrete access sequence against board 0. -/
def c9_ex_ops : List md_op := [.get_status 0 (some 6), .step 0 true, .stall 0 none]

/- Helper lemmas -/

lemma md_to_pullpush_wait_us (m : md_drill) (a b : Int) (c : Nat) :
    (md_to_pullpush m a b c).wait_us = m.wait_us := rfl

lemma tick_md_wait_us (m : md_drill) : (tick_md_drill m).md.wait_us = m.wait_us := by
  unfold tick_md_drill tick_md_switch
  cases h : m.state <;> simp [h] <;> split_ifs <;> rfl

lemma update_wait_us_mem (w ig : Nat) (h1 : MD_MIN_WAIT_US ≤ w) (h2 : w ≤ MD_MAX_WAIT_US) :
    MD_MIN_WAIT_US ≤ update_wait_us w ig ∧ update_wait_us w ig ≤ MD_MAX_WAIT_US := by
  unfold update_wait_us MD_MIN_WAIT_US MD_MAX_WAIT_US ED_IG_US_TARGET at *
  dsimp only
  split_ifs <;> omega

lemma drill_compute_wait_us (s : drill_loop) (er : ed_tick_result) (mr : md_tick_result)
    (d : Nat) :
    (drill_compute s er mr d).1.md.wait_us = update_wait_us mr.md.wait_us er.ig_time := by
  unfold drill_compute
  dsimp only
  split_ifs <;> simp [md_to_pullpush]

lemma drill_compute_pump_zero (s : drill_loop) (er : ed_tick_result) (mr : md_tick_result)
    (d : Nat) (h : s.pump_counter = 0) :
    (drill_compute s er mr d).2 = false ∧ (drill_compute s er mr d).1.pump_counter = 0 := by
  have hfalse : ¬ (PUMP_INTERVAL ≤ (0 : Int)) := by decide
  unfold drill_compute
  rw [h]
  simp [hfalse]

lemma drill_step_aborted_wait (s : drill_loop) (inp : drill_input) (f : drill_loop)
    (h : drill_step s inp = .aborted f) : f.md.wait_us = s.md.wait_us := by
  unfold drill_step at h
  by_cases hc : 1000 ≤ (tick_ed_drill s.ed s.stats inp.detect).ed.successive_shorts
  · simp only [hc, if_true, drill_step_result.aborted.injEq] at h
    rw [← h]
    exact tick_md_wait_us s.md
  · simp [hc] at h

lemma drill_step_running_wait (s : drill_loop) (inp : drill_input) (s2 : drill_loop)
    (p : Bool) (h : drill_step s inp = .running s2 p) :
    s2.md.wait_us = update_wait_us s.md.wait_us (tick_ed_drill s.ed s.stats inp.detect).ig_time := by
  unfold drill_step at h
  by_cases hc : 1000 ≤ (tick_ed_drill s.ed s.stats inp.detect).ed.successive_shorts
  · simp [hc] at h
  · simp only [hc, if_false, drill_step_result.running.injEq] at h
    rw [← h.1, drill_compute_wait_us, tick_md_wait_us]

lemma drill_step_running_pump (s : drill_loop) (inp : drill_input) (s2 : drill_loop)
    (p : Bool) (h : drill_step s inp = .running s2 p) (h0 : s.pump_counter = 0) :
    s2.pump_counter = 0 ∧ p = false := by
  unfold drill_step at h
  by_cases hc : 1000 ≤ (tick_ed_drill s.ed s.stats inp.detect).ed.successive_shorts
  · simp [hc] at h
  · simp only [hc, if_false, drill_step_result.running.injEq] at h
    have hz := drill_compute_pump_zero s (tick_ed_drill s.ed s.stats inp.detect)
      (tick_md_drill s.md) inp.dtick h0
    exact ⟨h.1 ▸ hz.2, h.2 ▸ hz.1⟩

lemma run_drill_wait_us_mem (inputs : List drill_input) :
    ∀ s : drill_loop, MD_MIN_WAIT_US ≤ s.md.wait_us → s.md.wait_us ≤ MD_MAX_WAIT_US →
      MD_MIN_WAIT_US ≤ (run_drill s inputs).1.md.wait_us ∧
      (run_drill s inputs).1.md.wait_us ≤ MD_MAX_WAIT_US := by
  induction inputs with
  | nil => intro s h1 h2; exact ⟨h1, h2⟩
  | cons inp rest ih =>
    intro s h1 h2
    rw [run_drill]
    by_cases hp : s.md.pos < s.md.steps
    · rw [if_pos hp]
      cases hstep : drill_step s inp with
      | aborted f =>
        have hw := drill_step_aborted_wait s inp f hstep
        dsimp only
        rw [hw]
        exact ⟨h1, h2⟩
      | running s2 p =>
        have hw := drill_step_running_wait s inp s2 p hstep
        have hmem := update_wait_us_mem s.md.wait_us
          (tick_ed_drill s.ed s.stats inp.detect).ig_time h1 h2
        dsimp only
        exact ih s2 (hw ▸ hmem.1) (hw ▸ hmem.2)
    · rw [if_neg hp]
      exact ⟨h1, h2⟩

lemma run_drill_no_pump (inputs : List drill_input) :
    ∀ s : drill_loop, s.pump_counter = 0 → (run_drill s inputs).2 = false := by
  induction inputs with
  | nil => intro s _; rfl
  | cons inp rest ih =>
    intro s h0
    rw [run_drill]
    by_cases hp : s.md.pos < s.md.steps
    · rw [if_pos hp]
      cases hstep : drill_step s inp with
      | aborted f => rfl
      | running s2 p =>
        have hq := drill_step_running_pump s inp s2 p hstep h0
        dsimp only
        rw [hq.2, ih s2 hq.1]
        rfl
    · rw [if_neg hp]

lemma boards_get_set_ne (b : md_boards) (v : md_board_status) {i j : Nat} (hij : i ≠ j) :
    boards_get (boards_set b j v) i = boards_get b i := by
  rcases i with _ | _ | _ | i <;> rcases j with _ | _ | _ | j <;>
    simp_all [boards_get, boards_set]

lemma fault_latch_apply (b : md_boards) (i : Nat) (op : md_op)
    (h : boards_get b i ≠ .ok) : boards_get (md_apply b op) i ≠ .ok := by
  cases op with
  | step j p => exact h
  | get_status j o =>
    unfold md_apply md_get_status
    by_cases h1 : 2 < j
    · simpa [h1] using h
    · by_cases h2 : boards_get b j = .ok
      · have hij : i ≠ j := fun e => h (by rw [e]; exact h2)
        cases o with
        | some r =>
          by_cases h3 : r % 2 = 1
          · simpa [h1, h2, h3, boards_get_set_ne b _ hij] using h
          · simpa [h1, h2, h3] using h
        | none => simpa [h1, h2, boards_get_set_ne b _ hij] using h
      · simpa [h1, h2] using h
  | stall j o =>
    unfold md_apply check_stall
    by_cases h1 : 2 < j
    · simpa [h1] using h
    · by_cases h2 : boards_get b j = .ok
      · have hij : i ≠ j := fun e => h (by rw [e]; exact h2)
        cases o with
        | some r => simpa [h1, h2] using h
        | none => simpa [h1, h2, boards_get_set_ne b _ hij] using h
      · simpa [h1, h2] using h

lemma fault_latch_ops (i : Nat) : ∀ (ops : List md_op) (b : md_boards),
    boards_get b i ≠ .ok → boards_get (md_apply_ops b ops) i ≠ .ok := by
  intro ops
  induction ops with
  | nil => intro b hb; exact hb
  | cons op rest ih => intro b hb; exact ih (md_apply b op) (fault_latch_apply b i op hb)

lemma md_step_fault (b : md_boards) (i : Nat) (p : Bool)
    (h : boards_get b i ≠ .ok) : md_step b i p = none := by
  unfold md_step
  split_ifs <;> rfl

lemma check_stall_fault (b : md_boards) (i : Nat) (o : Option Nat)
    (h : boards_get b i ≠ .ok) : check_stall b i o = (b, false) := by
  unfold check_stall
  split_ifs <;> rfl

/- Claim theorems -/

/-- Claim C1: during a drill run the loop body aborts if and only if
successive_shorts (as checked right after tick_ed_drill) has reached the hard
threshold 1000; on abort the discharge gate is deasserted and the loop
terminates with a fault; below 1000 no abort occurs. -/
theorem C1_abort_iff_hard_threshold (s : drill_loop) (inp : drill_input) :
    ((drill_step s inp).is_aborted = true ↔
      1000 ≤ (tick_ed_drill s.ed s.stats inp.detect).ed.successive_shorts) ∧
    ∀ f, drill_step s inp = .aborted f → f.gate = false := by
  by_cases hc : 1000 ≤ (tick_ed_drill s.ed s.stats inp.detect).ed.successive_shorts
  · constructor
    · simp [drill_step, hc, drill_step_result.is_aborted]
    · intro f hf
      simp only [drill_step, hc, if_true, drill_step_result.aborted.injEq] at hf
      exact hf ▸ rfl
  · constructor
    · simp [drill_step, hc, drill_step_result.is_aborted]
    · intro f hf
      simp [drill_step, hc] at hf

/-- Witness for C1: a concrete tick whose post-tick successive_shorts is 1000
aborts with the gate deasserted. -/
theorem C1_abort_iff_hard_threshold_witness :
    (1000 : Int) ≤ (tick_ed_drill c1_ex_loop.ed c1_ex_loop.stats c1_ex_inp.detect).ed.successive_shorts ∧
    (drill_step c1_ex_loop c1_ex_inp).is_aborted = true ∧
    drill_step c1_ex_loop c1_ex_inp = .aborted c1_ex_final ∧
    c1_ex_final.gate = false := by
  have h := C1_abort_iff_hard_threshold c1_ex_loop c1_ex_inp
  exact ⟨by decide, h.1.mpr (by decide), by decide, h.2 c1_ex_final (by decide)⟩

/-- Claim C2 (code evaluated at the failing input): on a tick in which the
discharge machine is mid-pulse and produces no ignition-delay sample (ig_time
keeps the "no ignition" sentinel 65535 that the source writes as -1), the
adaptive block still runs — because ig_time is unsigned, `ig_time >= 0` is
always true — and decrements wait_us from 1000 to 999 instead of leaving it
unchanged. -/
theorem C2_no_sample_tick_decrements_wait :
    c2_ex_loop.md.wait_us = 1000 ∧
    (tick_ed_drill c2_ex_loop.ed c2_ex_loop.stats false).ig_time = 65535 ∧
    drill_step c2_ex_loop ⟨false, 0⟩ = .running c2_ex_next false ∧
    c2_ex_next.md.wait_us = 999 := by decide

/-- Claim C3: in every drill invocation, for every tick sequence, wait_us is
within [MD_MIN_WAIT_US, MD_MAX_WAIT_US] = [25, 5000] at all times: the value
assigned by init_md_drill is 1000, and every state reached by running the
loop keeps the bounds. -/
theorem C3_wait_time_us_bounds (board_ix : Int) (is_plus : Bool) (steps : Int)
    (g : Int) (inputs : List drill_input) :
    (init_drill_loop board_ix is_plus steps g).md.wait_us = 1000 ∧
    MD_MIN_WAIT_US ≤ (run_drill (init_drill_loop board_ix is_plus steps g) inputs).1.md.wait_us ∧
    (run_drill (init_drill_loop board_ix is_plus steps g) inputs).1.md.wait_us ≤ MD_MAX_WAIT_US := by
  have h1000 : (init_drill_loop board_ix is_plus steps g).md.wait_us = 1000 := rfl
  refine ⟨h1000, ?_, ?_⟩
  · exact (run_drill_wait_us_mem inputs (init_drill_loop board_ix is_plus steps g)
      (by rw [h1000]; decide) (by rw [h1000]; decide)).1
  · exact (run_drill_wait_us_mem inputs (init_drill_loop board_ix is_plus steps g)
      (by rw [h1000]; decide) (by rw [h1000]; decide)).2

/-- Claim C4 (code evaluated at the failing input): the timer is not reset on
the Cooldown to WaitingIgnition transition, so one tick after leaving
Cooldown (entered at its threshold 300) the machine sits in WaitingIgnition
with timer 301, and a detector contact on that first waiting tick records
ig = 301 even though only one tick was spent in WaitingIgnition; likewise
leaving ShortCooldown at 1000 makes the next waiting tick spuriously time out
(ig = 10000) and clear successive_shorts. -/
theorem C4_phase_timer_not_reset_on_reentry :
    (tick_ed_drill ⟨.cooldown, 0, 300⟩ init_drill_stats false).ed =
      ⟨.waiting_ignition, 0, 301⟩ ∧
    (tick_ed_drill ⟨.waiting_ignition, 0, 301⟩ init_drill_stats true).ig_time = 301 ∧
    (301 : Nat) ≠ 1 ∧
    (tick_ed_drill ⟨.short_cooldown, 3, 1000⟩ init_drill_stats false).ed =
      ⟨.waiting_ignition, 3, 1001⟩ ∧
    (tick_ed_drill ⟨.waiting_ignition, 3, 1001⟩ init_drill_stats false).ed.successive_shorts = 0 ∧
    (tick_ed_drill ⟨.waiting_ignition, 3, 1001⟩ init_drill_stats false).ig_time = 10000 := by
  decide

/-- Claim C5 (code evaluated at the failing input): a pump cycle started with
pull = push = 2 steps pulls exactly 2 steps back, but on completing the pull
phase the code overwrites push_target_steps with 0 (keeping the progress
counter), so the push phase emits zero forward steps and the machine returns
to ok at position -2 instead of 0. -/
theorem C5_pump_cycle_push_not_executed :
    c5_ex_md.pull_target_steps = 2 ∧ c5_ex_md.push_target_steps = 2 ∧
    (run_md 52 c5_ex_md).state = .push ∧
    (run_md 53 c5_ex_md).state = .ok ∧
    (run_md 53 c5_ex_md).pos = -2 ∧
    (run_md 53 c5_ex_md).pos ≠ 0 ∧
    count_fwd_steps 53 c5_ex_md = 0 := by decide

/-- Claim C6 (theorem about the code at every input): pump_counter starts at 0
and is never incremented by the loop body, so the pump condition
pump_counter >= PUMP_INTERVAL never holds and no run of the drill loop, over
any tick-input sequence, ever triggers a pump cycle. -/
theorem C6_pump_cycle_never_triggers (board_ix : Int) (is_plus : Bool) (steps : Int)
    (g : Int) (inputs : List drill_input) :
    (run_drill (init_drill_loop board_ix is_plus steps g) inputs).2 = false :=
  run_drill_no_pump inputs (init_drill_loop board_ix is_plus steps g) rfl

/-- Claim C7 counterexample: at a concrete timeout tick (WaitingIgnition,
timer 500) the statistics record is returned completely unchanged — no
statistics field records the timeout (drill_stats_t has no timeout counter
and the timeout branch writes none of its fields), contradicting the claim
that a timeout is recorded in the statistics. -/
theorem C7_timeout_no_statistics_update :
    (tick_ed_drill ⟨.waiting_ignition, 7, 500⟩ c7_ex_stats true).stats = c7_ex_stats := by
  decide

/-- Claim C7 (amended): whenever the machine is in WaitingIgnition with
phase_timer at or beyond ED_IG_US_MAX_WAIT, the tick resets the timer to 0
(left at 1 by the unconditional per-tick increment), resets successive_shorts
to 0, signals the timeout through the output sample ig_time = 10000, and
remains in WaitingIgnition with the gate still asserted; the statistics are
not modified. -/
theorem C7_timeout_tick_behavior (ed : ed_drill) (stats : drill_stats) (detect : Bool)
    (h1 : ed.state = .waiting_ignition) (h2 : ED_IG_US_MAX_WAIT ≤ ed.timer) :
    tick_ed_drill ed stats detect =
      { ed := { state := .waiting_ignition, successive_shorts := 0, timer := 1 },
        stats := stats, ig_time := 10000, gate := true } := by
  unfold tick_ed_drill tick_ed_switch
  rw [h1]
  simp [h2]

/-- Witness for C7: the amended behavior at the concrete timeout tick. -/
theorem C7_timeout_tick_behavior_witness :
    (⟨.waiting_ignition, 7, 500⟩ : ed_drill).state = .waiting_ignition ∧
    ED_IG_US_MAX_WAIT ≤ (⟨.waiting_ignition, 7, 500⟩ : ed_drill).timer ∧
    tick_ed_drill ⟨.waiting_ignition, 7, 500⟩ c7_ex_stats true =
      { ed := ⟨.waiting_ignition, 0, 1⟩, stats := c7_ex_stats,
        ig_time := 10000, gate := true } :=
  ⟨rfl, by decide, C7_timeout_tick_behavior _ _ _ rfl (by decide)⟩

/-- Claim C8 (code evaluated at the failing input): a contact in
WaitingIgnition at timer 4 (ig = 4 <= ED_IG_US_SHORT_THRESH) transitions to
ShortCooldown, increments successive_shorts from 3 to 4, and records the
short in the statistics — but the gate is left asserted for this whole tick
(the WaitingIgnition case sets it true and the short branch never deasserts
it, despite the source comment "turn off immediately"); de-assertion happens
only on the following tick once ShortCooldown runs. -/
theorem C8_short_tick_gate_stays_asserted :
    tick_ed_drill ⟨.waiting_ignition, 3, 4⟩ init_drill_stats true =
      { ed := ⟨.short_cooldown, 4, 1⟩,
        stats := { init_drill_stats with n_short := 1, max_successive_short := 4 },
        ig_time := 4, gate := true } ∧
    (tick_ed_drill ⟨.short_cooldown, 4, 1⟩ init_drill_stats false).gate = false := by
  decide

/-- Claim C9: once a board's status is non-Ok it stays non-Ok across every
subsequent sequence of hardware accesses (md_get_status, md_step,
check_stall), and at every such later point md_step on that board emits no
step pulse and check_stall returns false without touching the boards array. -/
theorem C9_fault_latched_and_inert (b : md_boards) (i : Nat)
    (h : boards_get b i ≠ .ok) :
    ∀ ops : List md_op,
      boards_get (md_apply_ops b ops) i ≠ .ok ∧
      (∀ p : Bool, md_step (md_apply_ops b ops) i p = none) ∧
      (∀ o : Option Nat, check_stall (md_apply_ops b ops) i o = (md_apply_ops b ops, false)) := by
  intro ops
  have hb := fault_latch_ops i ops b h
  exact ⟨hb, fun p => md_step_fault (md_apply_ops b ops) i p hb,
    fun o => check_stall_fault (md_apply_ops b ops) i o hb⟩

/-- Witness for C9: board 0 is no_board; after a concrete access sequence it
is still non-Ok, md_step emits nothing and check_stall returns false. -/
theorem C9_fault_latched_and_inert_witness :
    boards_get c9_ex_boards 0 ≠ .ok ∧
    boards_get (md_apply_ops c9_ex_boards c9_ex_ops) 0 ≠ .ok ∧
    md_step c9_ex_boards 0 true = none ∧
    check_stall c9_ex_boards 0 (some 7) = (c9_ex_boards, false) := by
  have h := C9_fault_latched_and_inert c9_ex_boards 0 (by decide)
  exact ⟨by decide, (h c9_ex_ops).1, (h ([] : List md_op)).2.1 true,
    (h ([] : List md_op)).2.2 (some 7)⟩

/-- Claim C10 (code evaluated at the failing input): init_ed_drill does not
initialize the timer field — whatever garbage is on the stack persists — so
the first pass through WaitingIgnition is not deterministic: with garbage 500
the very first tick spuriously times out (ig_time 10000), while with 0 it
waits normally (ig_time 65535, the no-ignition sentinel). -/
theorem C10_init_ed_drill_timer_unset :
    (init_ed_drill 500).timer = 500 ∧ (init_ed_drill 500).timer ≠ 0 ∧
    (tick_ed_drill (init_ed_drill 500) init_drill_stats false).ig_time = 10000 ∧
    (tick_ed_drill (init_ed_drill 0) init_drill_stats false).ig_time = 65535 := by
  decide
